import Mathlib

/-!
Verification of the nn-weight-extractor core: the layer data model
(`model_parsers/base_parser.py`), the conv/batch-norm reconciler
(`model_parsers/keras_parser.py`), the Darknet weights writer
(`darknet_writer.py`), the cfg emitter (`cfg_generator.py`) and the
header reader (`utils.py`).

Modelling conventions.  float32 scalars are modelled as `Nat` values
standing for uninterpreted 32-bit patterns (no claim performs float
arithmetic; `0` is the pattern of `+0.0` produced by `np.zeros`).  Python
`Optional` arrays become `Option (List Nat)`; Python `None`/empty-list
truthiness is modelled by `Option`/emptiness as noted at each use site.
File bytes are `Nat` values `< 256`; multi-byte integers are
little-endian two's complement, matching `struct.pack`/`np.fromfile` on
the native little-endian host the source assumes.
-/

/-- The `LayerInfo` dataclass of `model_parsers/base_parser.py`.  Numeric
fields that are `Optional[int]` in the source default to `0` (`None` and
`0` behave identically at every use site that the claims touch);
`layers = []` models `layers = None` (both are falsy in the emitter). -/
structure LayerInfo where
  name : String := ""
  type : String := ""
  index : Nat := 0
  filters : Nat := 0
  channels : Nat := 0
  kernel_size : Nat := 0
  stride : Nat := 0
  padding : Nat := 0
  groups : Nat := 1
  activation : String := "linear"
  batch_normalize : Bool := false
  weights : Option (List Nat) := none
  biases : Option (List Nat) := none
  bn_gamma : Option (List Nat) := none
  bn_beta : Option (List Nat) := none
  bn_mean : Option (List Nat) := none
  bn_variance : Option (List Nat) := none
  pool_size : Nat := 0
  pool_stride : Nat := 0
  layers : List Int := []
deriving DecidableEq

/-- The distinguishable `ValueError`/`RuntimeError` conditions of
`DarknetWeightsWriter.write_convolutional_layer` (each corresponds to one
`raise` site, in source order). -/
inductive WriterError where
  | notConvolutional
  | missingWeights
  | biasesSizeMismatch
  | bnParamsMissing
  | scalesSizeMismatch
  | meanSizeMismatch
  | varianceSizeMismatch
  | weightsSizeMismatch
deriving DecidableEq

/-- `darknet_writer.py` lines 87-96: the biases array actually used —
`np.zeros(n)` when the record has none, else the record's own array. -/
def biasesArr (l : LayerInfo) : List Nat :=
  match l.biases with
  | none => List.replicate l.filters 0
  | some b => b

/-- `DarknetWeightsWriter.write_convolutional_layer` (darknet_writer.py
lines 63-146) as a pure function: returns the float32 words emitted to
the file before returning or raising, together with the raised error (if
any).  Mirrors the source order exactly: biases are validated and written
first, then (when `batch_normalize`) presence of gamma/mean/variance is
checked and scales, mean, variance are each validated immediately before
being written, and finally the weights are written after a size check
that compares `weights.size` against `num_weights = layer.weights.size`
computed from the same buffer (source lines 85 and 136-139). -/
def write_convolutional_layer (l : LayerInfo) : List Nat × Option WriterError :=
  if l.type ≠ "convolutional" then ([], some .notConvolutional)
  else if l.weights = none then ([], some .missingWeights)
  else
    let n := l.filters
    let w := l.weights.getD []
    let numWeights := w.length
    let biases := biasesArr l
    if biases.length ≠ n then ([], some .biasesSizeMismatch)
    else
      let bnPart : List Nat × Option WriterError :=
        if l.batch_normalize then
          if l.bn_gamma = none ∨ l.bn_mean = none ∨ l.bn_variance = none then
            (biases, some .bnParamsMissing)
          else
            let scales := l.bn_gamma.getD []
            if scales.length ≠ n then (biases, some .scalesSizeMismatch)
            else
              let mean := l.bn_mean.getD []
              if mean.length ≠ n then (biases ++ scales, some .meanSizeMismatch)
              else
                let variance := l.bn_variance.getD []
                if variance.length ≠ n then
                  (biases ++ scales ++ mean, some .varianceSizeMismatch)
                else (biases ++ scales ++ mean ++ variance, none)
        else (biases, none)
      match bnPart with
      | (out, some e) => (out, some e)
      | (out, none) =>
        if w.length ≠ numWeights then (out, some .weightsSizeMismatch)
        else (out ++ w, none)

/-- The weights element count the specification declares for a
Convolution record: `filterCount × inputChannels/groupCount ×
kernelSize²`.  Stated from the spec for comparison; the writer in the
source never computes this quantity. -/
def specWeightCount (l : LayerInfo) : Nat :=
  l.filters * (l.channels / l.groups) * l.kernel_size * l.kernel_size

/-- Little-endian byte decomposition: `k` bytes of `n`. -/
def toBytesLE : Nat → Nat → List Nat
  | 0, _ => []
  | k + 1, n => n % 256 :: toBytesLE k (n / 256)

/-- Little-endian byte recomposition. -/
def fromBytesLE : List Nat → Nat
  | [] => 0
  | b :: bs => b + 256 * fromBytesLE bs

/-- `struct.pack('i', x)`: a signed 32-bit integer, little-endian two's
complement. -/
def encInt32 (x : Int) : List Nat := toBytesLE 4 (x % 2 ^ 32).toNat

/-- `struct.pack('q', x)`: a signed 64-bit integer, little-endian two's
complement. -/
def encInt64 (x : Int) : List Nat := toBytesLE 8 (x % 2 ^ 64).toNat

/-- `np.fromfile(dtype=np.int32, count=1)` at the head of `bs`. -/
def decInt32 (bs : List Nat) : Int :=
  if fromBytesLE (bs.take 4) < 2 ^ 31 then (fromBytesLE (bs.take 4) : Int)
  else (fromBytesLE (bs.take 4) : Int) - 2 ^ 32

/-- `np.fromfile(dtype=np.int64, count=1)` at the head of `bs`. -/
def decInt64 (bs : List Nat) : Int :=
  if fromBytesLE (bs.take 8) < 2 ^ 63 then (fromBytesLE (bs.take 8) : Int)
  else (fromBytesLE (bs.take 8) : Int) - 2 ^ 64

/-- `DarknetWeightsWriter.write_header` (darknet_writer.py lines 29-57):
three int32 version fields, then `seen` as int64 when
`major*10 + minor >= 2` and as int32 otherwise. -/
def write_header (major minor revision seen : Int) : List Nat :=
  encInt32 major ++ encInt32 minor ++ encInt32 revision ++
    (if major * 10 + minor ≥ 2 then encInt64 seen else encInt32 seen)

/-- `verify_darknet_weights_header` (utils.py lines 103-126): reads five
int32 values (20 bytes) and fails with "header too short" when the file
has fewer; otherwise decodes the three version fields and re-reads `seen`
as int64 from offset 12 when `major*10 + minor >= 2`, else as the fourth
int32. -/
def verify_darknet_weights_header (bytes : List Nat) :
    Except String (Int × Int × Int × Int) :=
  if bytes.length < 20 then .error "Invalid weights file: header too short"
  else if decInt32 (bytes.take 4) * 10 + decInt32 ((bytes.drop 4).take 4) ≥ 2 then
    .ok (decInt32 (bytes.take 4), decInt32 ((bytes.drop 4).take 4),
      decInt32 ((bytes.drop 8).take 4), decInt64 ((bytes.drop 12).take 8))
  else
    .ok (decInt32 (bytes.take 4), decInt32 ((bytes.drop 4).take 4),
      decInt32 ((bytes.drop 8).take 4), decInt32 ((bytes.drop 12).take 4))

theorem toBytesLE_length (k n : Nat) : (toBytesLE k n).length = k := by
  induction k generalizing n with
  | zero => rfl
  | succ k ih => simp [toBytesLE, ih]

theorem fromBytesLE_toBytesLE (k n : Nat) (h : n < 256 ^ k) :
    fromBytesLE (toBytesLE k n) = n := by
  induction k generalizing n with
  | zero => simp [toBytesLE, fromBytesLE]; omega
  | succ k ih =>
    have hd : n / 256 < 256 ^ k := by
      rw [Nat.div_lt_iff_lt_mul (by norm_num)]
      calc n < 256 ^ (k + 1) := h
        _ = 256 ^ k * 256 := by ring
    simp [toBytesLE, fromBytesLE, ih (n / 256) hd]
    omega

theorem encInt32_length (x : Int) : (encInt32 x).length = 4 :=
  toBytesLE_length 4 _

theorem encInt64_length (x : Int) : (encInt64 x).length = 8 :=
  toBytesLE_length 8 _

theorem decInt32_encInt32 (x : Int) (h1 : -(2 ^ 31) ≤ x) (h2 : x < 2 ^ 31) :
    decInt32 (encInt32 x) = x := by
  unfold decInt32 encInt32
  have hmod0 : (0 : Int) ≤ x % 2 ^ 32 := Int.emod_nonneg x (by norm_num)
  have hmod1 : x % 2 ^ 32 < 2 ^ 32 := Int.emod_lt_of_pos x (by norm_num)
  have hun : ((x % 2 ^ 32).toNat : Int) = x % 2 ^ 32 := Int.toNat_of_nonneg hmod0
  have hub : (x % 2 ^ 32).toNat < 256 ^ 4 := by
    have : (256 : Nat) ^ 4 = 2 ^ 32 := by norm_num
    omega
  rw [List.take_of_length_le (le_of_eq (toBytesLE_length 4 _)),
    fromBytesLE_toBytesLE 4 _ hub]
  have h32 : ((256 : Nat) ^ 4 : Int) = 2 ^ 32 := by norm_num
  split <;> omega

theorem decInt64_encInt64 (x : Int) (h1 : -(2 ^ 63) ≤ x) (h2 : x < 2 ^ 63) :
    decInt64 (encInt64 x) = x := by
  unfold decInt64 encInt64
  have hmod0 : (0 : Int) ≤ x % 2 ^ 64 := Int.emod_nonneg x (by norm_num)
  have hmod1 : x % 2 ^ 64 < 2 ^ 64 := Int.emod_lt_of_pos x (by norm_num)
  have hun : ((x % 2 ^ 64).toNat : Int) = x % 2 ^ 64 := Int.toNat_of_nonneg hmod0
  have hub : (x % 2 ^ 64).toNat < 256 ^ 8 := by
    have : (256 : Nat) ^ 8 = 2 ^ 64 := by norm_num
    omega
  rw [List.take_of_length_le (le_of_eq (toBytesLE_length 8 _)),
    fromBytesLE_toBytesLE 8 _ hub]
  split <;> omega

theorem write_header_length (m mi r s : Int) :
    (write_header m mi r s).length = if m * 10 + mi ≥ 2 then 20 else 16 := by
  unfold write_header
  split <;>
    simp [List.length_append, encInt32_length, encInt64_length]

theorem header_decompose (m mi r s : Int) (tail : List Nat) :
    (write_header m mi r s ++ tail).take 4 = encInt32 m
    ∧ ((write_header m mi r s ++ tail).drop 4).take 4 = encInt32 mi
    ∧ ((write_header m mi r s ++ tail).drop 8).take 4 = encInt32 r
    ∧ (write_header m mi r s ++ tail).drop 12 =
        (if m * 10 + mi ≥ 2 then encInt64 s else encInt32 s) ++ tail := by
  have hW : write_header m mi r s ++ tail
      = encInt32 m ++ (encInt32 mi ++ (encInt32 r ++
          ((if m * 10 + mi ≥ 2 then encInt64 s else encInt32 s) ++ tail))) := by
    simp [write_header, List.append_assoc]
  have d4 : (write_header m mi r s ++ tail).drop 4
      = encInt32 mi ++ (encInt32 r ++
          ((if m * 10 + mi ≥ 2 then encInt64 s else encInt32 s) ++ tail)) := by
    rw [hW]; exact List.drop_left' (encInt32_length m)
  have d8 : (write_header m mi r s ++ tail).drop 8
      = encInt32 r ++ ((if m * 10 + mi ≥ 2 then encInt64 s else encInt32 s) ++ tail) := by
    have h8 : (write_header m mi r s ++ tail).drop 8
        = ((write_header m mi r s ++ tail).drop 4).drop 4 := by
      rw [List.drop_drop]
    rw [h8, d4]; exact List.drop_left' (encInt32_length mi)
  have d12 : (write_header m mi r s ++ tail).drop 12
      = (if m * 10 + mi ≥ 2 then encInt64 s else encInt32 s) ++ tail := by
    have h12 : (write_header m mi r s ++ tail).drop 12
        = ((write_header m mi r s ++ tail).drop 8).drop 4 := by
      rw [List.drop_drop]
    rw [h12, d8]; exact List.drop_left' (encInt32_length r)
  refine ⟨?_, ?_, ?_, d12⟩
  · rw [hW]; exact List.take_left' (encInt32_length m)
  · rw [d4]; exact List.take_left' (encInt32_length mi)
  · rw [d8]; exact List.take_left' (encInt32_length r)

/-- Claim C4: the header is three signed int32 fields `major`, `minor`,
`revision` followed by `seen` encoded as int64 exactly when
`major*10 + minor >= 2` and as int32 otherwise (so `major=0, minor=1`
gives a 4-byte `seen` and `major=0, minor=2` an 8-byte `seen`), and the
companion reader branches on the same test: padded to the reader's
20-byte minimum, every written header reads back verbatim. -/
theorem c4_header_seen_width (m mi r s : Int)
    (hm1 : -(2 ^ 31) ≤ m) (hm2 : m < 2 ^ 31)
    (hmi1 : -(2 ^ 31) ≤ mi) (hmi2 : mi < 2 ^ 31)
    (hr1 : -(2 ^ 31) ≤ r) (hr2 : r < 2 ^ 31)
    (hs1 : -(2 ^ 31) ≤ s) (hs2 : s < 2 ^ 31) :
    (write_header m mi r s).length = 12 + (if m * 10 + mi ≥ 2 then 8 else 4)
    ∧ (write_header 0 1 r s).length = 16
    ∧ (write_header 0 2 r s).length = 20
    ∧ verify_darknet_weights_header (write_header m mi r s ++ List.replicate 4 0)
        = .ok (m, mi, r, s) := by
  refine ⟨?_, ?_, ?_, ?_⟩
  · rw [write_header_length]; split <;> rfl
  · rw [write_header_length]; norm_num
  · rw [write_header_length]; norm_num
  · obtain ⟨e1, e2, e3, e4⟩ := header_decompose m mi r s (List.replicate 4 0)
    have hlen : ¬ (write_header m mi r s ++ List.replicate 4 0).length < 20 := by
      rw [List.length_append, write_header_length]
      split <;> simp
    have hdm : decInt32 ((write_header m mi r s ++ List.replicate 4 0).take 4) = m := by
      rw [e1]; exact decInt32_encInt32 m hm1 hm2
    have hdmi :
        decInt32 (((write_header m mi r s ++ List.replicate 4 0).drop 4).take 4) = mi := by
      rw [e2]; exact decInt32_encInt32 mi hmi1 hmi2
    have hdr :
        decInt32 (((write_header m mi r s ++ List.replicate 4 0).drop 8).take 4) = r := by
      rw [e3]; exact decInt32_encInt32 r hr1 hr2
    unfold verify_darknet_weights_header
    rw [if_neg hlen, hdm, hdmi, hdr]
    by_cases hc : m * 10 + mi ≥ 2
    · rw [if_pos hc]
      rw [if_pos hc] at e4
      have hds :
          decInt64 (((write_header m mi r s ++ List.replicate 4 0).drop 12).take 8) = s := by
        rw [e4, List.take_left' (encInt64_length s)]
        exact decInt64_encInt64 s (by omega) (by omega)
      rw [hds]
    · rw [if_neg hc]
      rw [if_neg hc] at e4
      have hds :
          decInt32 (((write_header m mi r s ++ List.replicate 4 0).drop 12).take 4) = s := by
        rw [e4, List.take_left' (encInt32_length s)]
        exact decInt32_encInt32 s hs1 hs2
      rw [hds]

/-- Witness for C4 at `major=0, minor=2, revision=0, seen=5` (and the
embedded `0,1` / `0,2` instances). -/
theorem c4_header_seen_width_witness :
    (write_header 0 2 0 5).length = 12 + (if (0 : Int) * 10 + 2 ≥ 2 then 8 else 4)
    ∧ (write_header 0 1 0 5).length = 16
    ∧ (write_header 0 2 0 5).length = 20
    ∧ verify_darknet_weights_header (write_header 0 2 0 5 ++ List.replicate 4 0)
        = .ok (0, 2, 0, 5) :=
  c4_header_seen_width 0 2 0 5 (by norm_num) (by norm_num) (by norm_num)
    (by norm_num) (by norm_num) (by norm_num) (by norm_num) (by norm_num)

/-- Claim C10: the reader rejects every input shorter than 20 bytes with
"header too short", before looking at any version field; hence an
old-format artifact (`major*10 + minor < 2`), whose complete header is
only 16 bytes, can never be read back when fewer than 4 further bytes
follow — even though the writer produces exactly such a file. -/
theorem c10_header_too_short :
    (∀ bytes : List Nat, bytes.length < 20 →
      verify_darknet_weights_header bytes
        = .error "Invalid weights file: header too short")
    ∧ (∀ m mi r s : Int, m * 10 + mi < 2 →
        (write_header m mi r s).length = 16
        ∧ verify_darknet_weights_header (write_header m mi r s)
            = .error "Invalid weights file: header too short") := by
  constructor
  · intro bytes h
    unfold verify_darknet_weights_header
    rw [if_pos h]
  · intro m mi r s h
    have hlen : (write_header m mi r s).length = 16 := by
      rw [write_header_length, if_neg (by omega)]
    refine ⟨hlen, ?_⟩
    unfold verify_darknet_weights_header
    rw [if_pos (by rw [hlen]; norm_num)]

/-- Witness for C10: the empty file and the freshly written old-format
`major=0, minor=1` header are both rejected as too short. -/
theorem c10_header_too_short_witness :
    verify_darknet_weights_header []
      = .error "Invalid weights file: header too short"
    ∧ (write_header 0 1 0 0).length = 16
    ∧ verify_darknet_weights_header (write_header 0 1 0 0)
        = .error "Invalid weights file: header too short" :=
  ⟨c10_header_too_short.1 [] (by norm_num),
   (c10_header_too_short.2 0 1 0 0 (by norm_num)).1,
   (c10_header_too_short.2 0 1 0 0 (by norm_num)).2⟩

/-- The `re.search(r'_(\d+)$', name)` step of
`KerasParser._match_conv_bn_pairs` (keras_parser.py line 317): the
maximal trailing run of digits, provided it is nonempty and preceded by
an underscore. -/
def trailingNum (name : String) : Option String :=
  if (name.data.reverse.takeWhile (fun c => c.isDigit)).isEmpty then none
  else
    match name.data.reverse.drop
        (name.data.reverse.takeWhile (fun c => c.isDigit)).length with
    | '_' :: _ =>
      some (String.mk (name.data.reverse.takeWhile (fun c => c.isDigit)).reverse)
    | _ => none

/-- The dictionary keys a batch-normalization record contributes in
`_match_conv_bn_pairs` (keras_parser.py lines 311-325): the two candidate
convolution names for a numeric suffix, or `conv2d` for the literal name
`batch_normalization`, and nothing for any other record. -/
def bnCandidates (l : LayerInfo) : List String :=
  if l.type = "batch_normalization" then
    match trailingNum l.name with
    | some num => ["conv2d_" ++ num, "convolutional_" ++ num]
    | none => if l.name = "batch_normalization" then ["conv2d"] else []
  else []

/-- All `(key, bn-record)` insertions into the `bn_layers` dict, in
iteration order. -/
def bnEntries : List LayerInfo → List (String × LayerInfo)
  | [] => []
  | l :: ls => (bnCandidates l).map (fun c => (c, l)) ++ bnEntries ls

/-- `bn_layers.get(name)`: Python dict lookup, where a later insertion
with the same key overwrites an earlier one — hence the last matching
entry wins. -/
def bnGet (ls : List LayerInfo) (name : String) : Option LayerInfo :=
  ((bnEntries ls).reverse.find? (fun p => p.1 == name)).map (fun p => p.2)

/-- Whether `current.biases is None or not current.biases.any()` holds
(keras_parser.py line 350): no biases, or no nonzero entry. -/
def biasesNoneOrAllZero (c : LayerInfo) : Bool :=
  match c.biases with
  | none => true
  | some bs => !(bs.any (fun v => v != 0))

/-- The mutation applied to a convolution record on a successful match
(keras_parser.py lines 341-351): set `batch_normalize`, copy the four
normalization arrays, and take the BN beta as biases when the existing
biases are absent or all zero. -/
def fuse (c bnl : LayerInfo) : LayerInfo :=
  { c with batch_normalize := true,
           bn_gamma := bnl.bn_gamma, bn_beta := bnl.bn_beta,
           bn_mean := bnl.bn_mean, bn_variance := bnl.bn_variance,
           biases := if biasesNoneOrAllZero c then bnl.bn_beta else c.biases }

/-- The positional fallback (keras_parser.py lines 336-339): the record
at the immediately following position, provided it is a
batch-normalization record. -/
def posFallback (full : List LayerInfo) (i : Nat) : Option LayerInfo :=
  match full.get? (i + 1) with
  | some nl => if nl.type = "batch_normalization" then some nl else none
  | none => none

/-- Two-tier partner resolution for the convolution at position `i`
(keras_parser.py lines 331-339): name lookup first, positional adjacency
second. -/
def findPartner (full : List LayerInfo) (i : Nat) (c : LayerInfo) :
    Option LayerInfo :=
  match bnGet full c.name with
  | some b => some b
  | none => posFallback full i

/-- One iteration of the matching loop: convolution records are fused
with their partner (if any); every other record is untouched. -/
def reconcileStep (full : List LayerInfo) (i : Nat) (l : LayerInfo) : LayerInfo :=
  if l.type = "convolutional" then
    match findPartner full i l with
    | some b => fuse l b
    | none => l
  else l

def reconcileGo (full : List LayerInfo) : Nat → List LayerInfo → List LayerInfo
  | _, [] => []
  | i, l :: rest => reconcileStep full i l :: reconcileGo full (i + 1) rest

/-- `KerasParser._match_conv_bn_pairs` (keras_parser.py lines 308-354) as
a function on the layer sequence.  The in-place loop is pure in effect:
every datum the matching reads (names, types, positions, the BN records'
arrays) is never mutated by the loop, so the loop is a position-indexed
map. -/
def match_conv_bn_pairs (ls : List LayerInfo) : List LayerInfo :=
  reconcileGo ls 0 ls


theorem reconcileGo_length (full : List LayerInfo) :
    ∀ (i : Nat) (xs : List LayerInfo),
      (reconcileGo full i xs).length = xs.length := by
  intro i xs
  induction xs generalizing i with
  | nil => rfl
  | cons x rest ih => simp [reconcileGo, ih]

theorem reconcileGo_get? (full : List LayerInfo) :
    ∀ (i : Nat) (xs : List LayerInfo) (j : Nat),
      (reconcileGo full i xs).get? j
        = (xs.get? j).map (reconcileStep full (i + j)) := by
  intro i xs
  induction xs generalizing i with
  | nil => intro j; simp [reconcileGo]
  | cons x rest ih =>
    intro j
    cases j with
    | zero => simp [reconcileGo]
    | succ j =>
      simp only [reconcileGo, List.get?_cons_succ]
      rw [show i + (j + 1) = (i + 1) + j by omega]
      exact ih (i + 1) j

theorem match_conv_bn_pairs_get? (ls : List LayerInfo) (j : Nat) :
    (match_conv_bn_pairs ls).get? j = (ls.get? j).map (reconcileStep ls j) := by
  unfold match_conv_bn_pairs
  rw [reconcileGo_get?]
  simp

theorem reconcileStep_of_not_conv (full : List LayerInfo) (i : Nat)
    (l : LayerInfo) (h : l.type ≠ "convolutional") :
    reconcileStep full i l = l := by
  simp [reconcileStep, h]

theorem reconcileStep_type (full : List LayerInfo) (i : Nat) (l : LayerInfo) :
    (reconcileStep full i l).type = l.type := by
  unfold reconcileStep
  split
  · rcases findPartner full i l with _ | b <;> rfl
  · rfl

theorem bnCandidates_reconcileStep (full : List LayerInfo) (i : Nat)
    (l : LayerInfo) : bnCandidates (reconcileStep full i l) = bnCandidates l := by
  have hne : ("convolutional" : String) ≠ "batch_normalization" := by decide
  by_cases h : l.type = "convolutional"
  · have ht := reconcileStep_type full i l
    simp [bnCandidates, ht, h, hne]
  · rw [reconcileStep_of_not_conv full i l h]

theorem bnEntries_reconcileGo (full : List LayerInfo) :
    ∀ (i : Nat) (xs : List LayerInfo),
      bnEntries (reconcileGo full i xs) = bnEntries xs := by
  intro i xs
  induction xs generalizing i with
  | nil => rfl
  | cons x rest ih =>
    simp only [reconcileGo, bnEntries]
    rw [ih (i + 1)]
    congr 1
    by_cases h : x.type = "convolutional"
    · have h1 : bnCandidates (reconcileStep full i x) = [] := by
        rw [bnCandidates_reconcileStep]
        simp [bnCandidates, h]
      have h2 : bnCandidates x = [] := by simp [bnCandidates, h]
      rw [h1, h2]
      rfl
    · rw [reconcileStep_of_not_conv full i x h]

theorem bnGet_match_conv_bn_pairs (ls : List LayerInfo) (name : String) :
    bnGet (match_conv_bn_pairs ls) name = bnGet ls name := by
  unfold bnGet match_conv_bn_pairs
  rw [bnEntries_reconcileGo]

theorem posFallback_match_conv_bn_pairs (ls : List LayerInfo) (i : Nat) :
    posFallback (match_conv_bn_pairs ls) i = posFallback ls i := by
  unfold posFallback
  rw [match_conv_bn_pairs_get?]
  cases h : ls.get? (i + 1) with
  | none => rfl
  | some nl =>
    have ht := reconcileStep_type ls (i + 1) nl
    by_cases hbn : nl.type = "batch_normalization"
    · have hnc : nl.type ≠ "convolutional" := by rw [hbn]; decide
      simp [reconcileStep_of_not_conv ls (i + 1) nl hnc]
    · simp [ht, hbn]

theorem findPartner_match_conv_bn_pairs (ls : List LayerInfo) (i : Nat)
    (c c' : LayerInfo) (hname : c'.name = c.name) :
    findPartner (match_conv_bn_pairs ls) i c' = findPartner ls i c := by
  unfold findPartner
  rw [bnGet_match_conv_bn_pairs, hname, posFallback_match_conv_bn_pairs]

theorem fuse_fuse (c b : LayerInfo) : fuse (fuse c b) b = fuse c b := by
  rcases hcb : c.biases with _ | bs
  · simp [fuse, biasesNoneOrAllZero, hcb]
  · cases hz : bs.any fun v => v != 0 <;>
      simp [fuse, biasesNoneOrAllZero, hcb, hz]

theorem reconcileStep_match (ls : List LayerInfo) (j : Nat) (l : LayerInfo) :
    reconcileStep (match_conv_bn_pairs ls) j (reconcileStep ls j l)
      = reconcileStep ls j l := by
  by_cases h : l.type = "convolutional"
  · rcases hp : findPartner ls j l with _ | b
    · have hstep : reconcileStep ls j l = l := by simp [reconcileStep, h, hp]
      rw [hstep]
      simp [reconcileStep, h, findPartner_match_conv_bn_pairs ls j l l rfl, hp]
    · have hstep : reconcileStep ls j l = fuse l b := by simp [reconcileStep, h, hp]
      rw [hstep]
      have hft : (fuse l b).type = "convolutional" := h
      have hfp : findPartner (match_conv_bn_pairs ls) j (fuse l b) = some b := by
        rw [findPartner_match_conv_bn_pairs ls j l (fuse l b) rfl]
        exact hp
      simp [reconcileStep, hft, hfp, fuse_fuse]
  · rw [reconcileStep_of_not_conv ls j l h,
      reconcileStep_of_not_conv (match_conv_bn_pairs ls) j l h]

theorem reconcileGo_match (ls : List LayerInfo) :
    ∀ (i : Nat) (xs : List LayerInfo),
      reconcileGo (match_conv_bn_pairs ls) i (reconcileGo ls i xs)
        = reconcileGo ls i xs := by
  intro i xs
  induction xs generalizing i with
  | nil => rfl
  | cons x rest ih =>
    simp only [reconcileGo]
    rw [reconcileStep_match, ih (i + 1)]

/-- Claim C9: the Reconciler is idempotent — running
`_match_conv_bn_pairs` a second time on an already-reconciled sequence
changes no record: no record is double-fused and no field
(`batch_normalize`, the four normalization arrays, `biases`) takes a
different value than after the first run. -/
theorem c9_reconciler_idempotent (ls : List LayerInfo) :
    match_conv_bn_pairs (match_conv_bn_pairs ls) = match_conv_bn_pairs ls := by
  show reconcileGo (match_conv_bn_pairs ls) 0 (match_conv_bn_pairs ls)
    = match_conv_bn_pairs ls
  conv_lhs => rw [show match_conv_bn_pairs ls = reconcileGo ls 0 ls from rfl]
  exact reconcileGo_match ls 0 ls

/-- A convolution record matched by name in the C2 counterexample. -/
def c2conv : LayerInfo :=
  { name := "conv2d_1", type := "convolutional", filters := 1,
    weights := some [5], biases := some [6] }

/-- A batch-normalization record that is fused yet stays in the output in
the C2 counterexample. -/
def c2bn : LayerInfo :=
  { name := "batch_normalization_1", type := "batch_normalization",
    index := 1, bn_gamma := some [1], bn_beta := some [2],
    bn_mean := some [3], bn_variance := some [4] }

/-- Counterexample to claim C2: the Reconciler never removes
Normalization records.  On `[conv2d_1, batch_normalization_1]` the
Normalization record is fused into the Convolution (its arrays are
copied) but the output sequence still contains it unchanged at its
original position, so the output is not free of Normalization records. -/
theorem c2_counterexample :
    (match_conv_bn_pairs [c2conv, c2bn]).get? 1 = some c2bn
    ∧ c2bn.type = "batch_normalization"
    ∧ ((match_conv_bn_pairs [c2conv, c2bn]).get? 0).map
        (fun l => l.batch_normalize) = some true := by decide

/-- Claim C2 as amended: the Reconciler keeps the sequence's length and
order; every record that is not a Convolution — Normalization records
included — passes through unchanged at its original position.
Normalization records are fused into Convolution records (arrays copied,
`batch_normalize` set) but are not removed; downstream consumers skip
them instead. -/
theorem c2_amended (ls : List LayerInfo) :
    (match_conv_bn_pairs ls).length = ls.length
    ∧ ∀ (i : Nat) (l : LayerInfo), ls.get? i = some l →
        l.type ≠ "convolutional" → (match_conv_bn_pairs ls).get? i = some l := by
  constructor
  · exact reconcileGo_length ls 0 ls
  · intro i l hget hty
    rw [match_conv_bn_pairs_get?, hget]
    simp [reconcileStep_of_not_conv ls i l hty]

/-- Witness for C2 as amended, at the concrete two-record sequence. -/
theorem c2_amended_witness :
    (match_conv_bn_pairs [c2conv, c2bn]).length = 2
    ∧ (match_conv_bn_pairs [c2conv, c2bn]).get? 1 = some c2bn :=
  ⟨(c2_amended [c2conv, c2bn]).1,
   (c2_amended [c2conv, c2bn]).2 1 c2bn (by decide) (by decide)⟩

/-- C6 counterexample record: a convolution whose name the BN record's
suffix resolves to. -/
def c6convNamed : LayerInfo :=
  { name := "conv2d_5", type := "convolutional", filters := 1,
    weights := some [21], biases := some [22] }

/-- C6 counterexample record: a convolution with no name match, directly
before the BN record. -/
def c6convFoo : LayerInfo :=
  { name := "foo", type := "convolutional", filters := 1, index := 1,
    weights := some [23], biases := some [24] }

/-- C6 counterexample record: the BN record consumed twice. -/
def c6bn : LayerInfo :=
  { name := "batch_normalization_5", type := "batch_normalization",
    index := 2, bn_gamma := some [11], bn_beta := some [12],
    bn_mean := some [13], bn_variance := some [14] }

/-- Counterexample to claim C6: the positional fallback has no
"not already consumed" guard.  In `[conv2d_5, foo, batch_normalization_5]`
the BN record is consumed by `conv2d_5` via name match, yet `foo` — which
has no name match — also fuses with the very same BN record by positional
adjacency, receiving the same arrays. -/
theorem c6_counterexample :
    bnGet [c6convNamed, c6convFoo, c6bn] c6convNamed.name = some c6bn
    ∧ bnGet [c6convNamed, c6convFoo, c6bn] c6convFoo.name = none
    ∧ ((match_conv_bn_pairs [c6convNamed, c6convFoo, c6bn]).get? 0).map
        (fun l => (l.batch_normalize, l.bn_gamma)) = some (true, some [11])
    ∧ ((match_conv_bn_pairs [c6convNamed, c6convFoo, c6bn]).get? 1).map
        (fun l => (l.batch_normalize, l.bn_gamma)) = some (true, some [11]) := by
  decide

/-- Claim C6 as amended: a Convolution with no name match fuses with the
record at the immediately following position of the sequence whenever
that record is a Normalization — unconditionally, with no check that the
Normalization has not already been consumed by another Convolution's
name match. -/
theorem c6_amended (ls : List LayerInfo) (i : Nat) (c nl : LayerInfo)
    (hc : ls.get? i = some c) (ht : c.type = "convolutional")
    (hn : bnGet ls c.name = none)
    (hnl : ls.get? (i + 1) = some nl)
    (hbnt : nl.type = "batch_normalization") :
    (match_conv_bn_pairs ls).get? i = some (fuse c nl) := by
  rw [match_conv_bn_pairs_get?, hc]
  have hnl' : ls[i + 1]? = some nl := by
    simpa [List.get?_eq_getElem?] using hnl
  simp [reconcileStep, ht, findPartner, hn, posFallback, hnl', hbnt]

/-- Witness for C6 as amended: `foo` fuses with the adjacent,
already-consumed BN record. -/
theorem c6_amended_witness :
    (match_conv_bn_pairs [c6convNamed, c6convFoo, c6bn]).get? 1
      = some (fuse c6convFoo c6bn) :=
  c6_amended [c6convNamed, c6convFoo, c6bn] 1 c6convFoo c6bn
    (by decide) (by decide) (by decide) (by decide) (by decide)

theorem write_conv_cases (l : LayerInfo) :
    write_convolutional_layer l = ([], some .notConvolutional)
    ∨ write_convolutional_layer l = ([], some .missingWeights)
    ∨ write_convolutional_layer l = ([], some .biasesSizeMismatch)
    ∨ write_convolutional_layer l = (biasesArr l, some .bnParamsMissing)
    ∨ write_convolutional_layer l = (biasesArr l, some .scalesSizeMismatch)
    ∨ write_convolutional_layer l
        = (biasesArr l ++ l.bn_gamma.getD [], some .meanSizeMismatch)
    ∨ write_convolutional_layer l
        = (biasesArr l ++ l.bn_gamma.getD [] ++ l.bn_mean.getD [],
           some .varianceSizeMismatch)
    ∨ (write_convolutional_layer l).2 = none := by
  simp only [write_convolutional_layer]
  split_ifs <;> simp_all

/-- Winning layer of the C1 counterexample: valid biases, an oversized
scales array. -/
def c1layer : LayerInfo :=
  { name := "c1", type := "convolutional", filters := 1,
    weights := some [9], biases := some [0], batch_normalize := true,
    bn_gamma := some [1, 2], bn_mean := some [3], bn_variance := some [4] }

/-- Counterexample to claim C1: validation is not all-before-write.  On a
record whose scales array has the wrong length, the write fails — yet the
biases words have already been emitted, so the failing block is not
byte-free. -/
theorem c1_counterexample :
    ((write_convolutional_layer c1layer).2).isSome = true
    ∧ (write_convolutional_layer c1layer).1 ≠ [] := by decide

/-- Claim C1 as amended: only the biases length is validated before any
byte of the block is written (a biases mismatch emits nothing); each
later array is validated immediately before that array is written, so on
any failure the emitted words are exactly the fully written earlier
arrays of the block — the failing array itself contributes no bytes, but
earlier arrays of the same block may already be on disk. -/
theorem c1_amended :
    (∀ l : LayerInfo,
      (write_convolutional_layer l).2 = some .biasesSizeMismatch →
        (write_convolutional_layer l).1 = [])
    ∧ (∀ l : LayerInfo, ((write_convolutional_layer l).2).isSome = true →
        (write_convolutional_layer l).1 = []
        ∨ (write_convolutional_layer l).1 = biasesArr l
        ∨ (write_convolutional_layer l).1 = biasesArr l ++ l.bn_gamma.getD []
        ∨ (write_convolutional_layer l).1
            = biasesArr l ++ l.bn_gamma.getD [] ++ l.bn_mean.getD []) := by
  constructor
  · intro l h
    rcases write_conv_cases l with hc | hc | hc | hc | hc | hc | hc | hc
    · rw [hc]
    · rw [hc]
    · rw [hc]
    · rw [hc] at h; simp at h
    · rw [hc] at h; simp at h
    · rw [hc] at h; simp at h
    · rw [hc] at h; simp at h
    · rw [hc] at h; simp at h
  · intro l h
    rcases write_conv_cases l with hc | hc | hc | hc | hc | hc | hc | hc
    · exact Or.inl (by rw [hc])
    · exact Or.inl (by rw [hc])
    · exact Or.inl (by rw [hc])
    · exact Or.inr (Or.inl (by rw [hc]))
    · exact Or.inr (Or.inl (by rw [hc]))
    · exact Or.inr (Or.inr (Or.inl (by rw [hc])))
    · exact Or.inr (Or.inr (Or.inr (by rw [hc])))
    · rw [hc] at h; simp at h

/-- Layer used by the C1 amended witness: a biases length mismatch. -/
def c1w : LayerInfo :=
  { name := "w1", type := "convolutional", filters := 1,
    weights := some [9], biases := some [0, 0] }

/-- Witness for C1 as amended at a concrete failing record. -/
theorem c1_amended_witness :
    (write_convolutional_layer c1w).1 = []
    ∧ ((write_convolutional_layer c1w).1 = []
        ∨ (write_convolutional_layer c1w).1 = biasesArr c1w
        ∨ (write_convolutional_layer c1w).1 = biasesArr c1w ++ c1w.bn_gamma.getD []
        ∨ (write_convolutional_layer c1w).1
            = biasesArr c1w ++ c1w.bn_gamma.getD [] ++ c1w.bn_mean.getD []) :=
  ⟨c1_amended.1 c1w (by decide), c1_amended.2 c1w (by decide)⟩

/-- The C3 layer: its declared shape expects 1 weight, its buffer holds 5. -/
def c3layer : LayerInfo :=
  { name := "c3", type := "convolutional", filters := 1, channels := 1,
    kernel_size := 1, groups := 1, weights := some [7, 7, 7, 7, 7],
    biases := some [0] }

/-- Claim C3 is violated by the code (code bug): the writer's weights
size check compares the buffer's length against itself
(`num_weights = layer.weights.size` at line 85 versus `weights.size` at
line 137), so a buffer whose element count differs from
`filterCount × inputChannels/groupCount × kernelSize²` is written in
full with no error. -/
theorem c3_weights_check_vacuous :
    write_convolutional_layer c3layer = ([0, 7, 7, 7, 7, 7], none)
    ∧ (c3layer.weights.getD []).length ≠ specWeightCount c3layer := by decide

/-- The C5 layer: normalization flagged, shift (beta) absent, the other
three arrays present. -/
def c5layer : LayerInfo :=
  { name := "c5", type := "convolutional", filters := 1,
    weights := some [7], biases := some [1], batch_normalize := true,
    bn_gamma := some [2], bn_beta := none, bn_mean := some [3],
    bn_variance := some [4] }

/-- Counterexample to claim C5: the writer checks only three of the four
normalization arrays.  A record with `batch_normalize` set whose shift
(beta) array is absent writes successfully with no error. -/
theorem c5_counterexample :
    c5layer.batch_normalize = true ∧ c5layer.bn_beta = none
    ∧ (write_convolutional_layer c5layer).2 = none := by decide

/-- Claim C5 as amended: with `batch_normalize` set, the write fails with
the missing-BN-parameters error when any of the three serialized
normalization arrays (scale, running mean, running variance) is absent;
the shift (beta) array is never checked (it is not part of the written
block). -/
theorem c5_amended (l : LayerInfo) (ht : l.type = "convolutional")
    (hw : l.weights ≠ none) (hb : (biasesArr l).length = l.filters)
    (hbn : l.batch_normalize = true)
    (hmiss : l.bn_gamma = none ∨ l.bn_mean = none ∨ l.bn_variance = none) :
    write_convolutional_layer l = (biasesArr l, some .bnParamsMissing) := by
  simp only [write_convolutional_layer]
  rw [if_neg (by simp [ht]), if_neg hw, if_neg (by simp [hb]),
    if_pos hbn, if_pos hmiss]

/-- Layer used by the C5 amended witness: gamma absent. -/
def c5w : LayerInfo :=
  { name := "w5", type := "convolutional", filters := 1,
    weights := some [7], biases := some [1], batch_normalize := true,
    bn_gamma := none, bn_mean := some [3], bn_variance := some [4] }

/-- Witness for C5 as amended at a concrete record with gamma absent. -/
theorem c5_amended_witness :
    write_convolutional_layer c5w = (biasesArr c5w, some .bnParamsMissing) :=
  c5_amended c5w rfl (by decide) (by decide) rfl (Or.inl rfl)

theorem write_conv_bias_head (l : LayerInfo) (ht : l.type = "convolutional")
    (hw : l.weights ≠ none) (hblen : (biasesArr l).length = l.filters) :
    (write_convolutional_layer l).1.take l.filters = biasesArr l
    ∧ l.filters ≤ (write_convolutional_layer l).1.length
    ∧ (write_convolutional_layer l).2 ≠ some .biasesSizeMismatch
    ∧ (l.batch_normalize = false → (write_convolutional_layer l).2 = none) := by
  have htake : ∀ rest : List Nat,
      ((biasesArr l ++ rest).take l.filters = biasesArr l)
      ∧ l.filters ≤ (biasesArr l ++ rest).length := by
    intro rest
    refine ⟨List.take_left' hblen, ?_⟩
    rw [List.length_append, hblen]
    omega
  have htake0 : ((biasesArr l).take l.filters = biasesArr l)
      ∧ l.filters ≤ (biasesArr l).length := by
    refine ⟨?_, le_of_eq hblen.symm⟩
    rw [← hblen]
    exact List.take_length _
  simp only [write_convolutional_layer]
  rw [if_neg (by simp [ht]), if_neg hw, if_neg (by simp [hblen])]
  cases hbn : l.batch_normalize with
  | false =>
    simp only [Bool.false_eq_true, if_false]
    rw [if_neg (by simp)]
    exact ⟨(htake _).1, (htake _).2, by simp, fun _ => rfl⟩
  | true =>
    simp only [if_true]
    split_ifs <;>
      first
        | exact absurd rfl (by assumption)
        | (simp only [List.append_assoc]
           refine ⟨?_, ?_, ?_, ?_⟩
           · first | exact (htake _).1 | exact htake0.1
           · first | exact (htake _).2 | exact htake0.2
           · simp
           · simp)

/-- Claim C8: a Convolution record whose `biases` field is absent at
write time gets a `filterCount`-length zero float32 vector written in
place of the biases, and the substitution itself raises no error: the
biases-size check passes, and when no later stage fails (no
batch-normalization block) the whole write succeeds. -/
theorem c8_missing_biases_zero (l : LayerInfo) (ht : l.type = "convolutional")
    (hw : l.weights ≠ none) (hb : l.biases = none) :
    (write_convolutional_layer l).1.take l.filters = List.replicate l.filters 0
    ∧ l.filters ≤ (write_convolutional_layer l).1.length
    ∧ (write_convolutional_layer l).2 ≠ some .biasesSizeMismatch
    ∧ (l.batch_normalize = false → (write_convolutional_layer l).2 = none) := by
  have hba : biasesArr l = List.replicate l.filters 0 := by simp [biasesArr, hb]
  have hblen : (biasesArr l).length = l.filters := by rw [hba]; simp
  obtain ⟨h1, h2, h3, h4⟩ := write_conv_bias_head l ht hw hblen
  exact ⟨hba ▸ h1, h2, h3, h4⟩

/-- Layer used by the C8 witness: no biases, one weight, no BN. -/
def c8w : LayerInfo :=
  { name := "w8", type := "convolutional", filters := 1, weights := some [3] }

/-- Witness for C8 at a concrete biasless record. -/
theorem c8_missing_biases_zero_witness :
    (write_convolutional_layer c8w).1.take c8w.filters
      = List.replicate c8w.filters 0
    ∧ c8w.filters ≤ (write_convolutional_layer c8w).1.length
    ∧ (write_convolutional_layer c8w).2 ≠ some .biasesSizeMismatch
    ∧ (c8w.batch_normalize = false → (write_convolutional_layer c8w).2 = none) :=
  c8_missing_biases_zero c8w rfl (by decide) rfl

/-- One line of the generated .cfg text (cfg_generator.py): a `[kind]`
section header line, a `key=value` line, or the blank separator line.
Each constructor corresponds to one `file.write` in the source. -/
inductive CfgLine where
  | sectionHeader (kind : String)
  | kv (key value : String)
  | blank
deriving DecidableEq

/-- The activation mapping of `write_convolutional_layer` in
cfg_generator.py lines 55-62. -/
def activationMap (a : String) : String :=
  if a = "linear" then "linear"
  else if a = "relu" ∨ a = "leaky" ∨ a = "leaky_relu" then "leaky"
  else "linear"

/-- `DarknetCfgGenerator.write_net_section` (cfg_generator.py lines
14-38); `input_shape` is `(height, width, channels)`, momentum and decay
are the caller defaults rendered as text. -/
def write_net_section (shape : Nat × Nat × Nat) (batch subdivisions : Nat)
    (momentum decay : String) : List CfgLine :=
  [.sectionHeader "net", .kv "batch" (toString batch),
   .kv "subdivisions" (toString subdivisions),
   .kv "width" (toString shape.2.1), .kv "height" (toString shape.1),
   .kv "channels" (toString shape.2.2), .kv "momentum" momentum,
   .kv "decay" decay, .blank]

/-- `DarknetCfgGenerator.write_convolutional_layer` (cfg_generator.py
lines 40-65). -/
def write_convolutional_cfg (l : LayerInfo) : List CfgLine :=
  [CfgLine.sectionHeader "convolutional"] ++
  (if l.batch_normalize then [CfgLine.kv "batch_normalize" "1"] else []) ++
  [CfgLine.kv "filters" (toString l.filters),
   CfgLine.kv "size" (toString l.kernel_size),
   CfgLine.kv "stride" (toString l.stride),
   CfgLine.kv "pad" (if l.padding ≠ 0 then "1" else "0")] ++
  (if l.groups > 1 then [CfgLine.kv "groups" (toString l.groups)] else []) ++
  [CfgLine.kv "activation" (activationMap l.activation), CfgLine.blank]

/-- `DarknetCfgGenerator.write_maxpool_layer` (cfg_generator.py 67-72). -/
def write_maxpool_cfg (l : LayerInfo) : List CfgLine :=
  [.sectionHeader "maxpool", .kv "size" (toString l.pool_size),
   .kv "stride" (toString l.pool_stride), .blank]

/-- `DarknetCfgGenerator.write_upsample_layer` (cfg_generator.py 74-78). -/
def write_upsample_cfg (l : LayerInfo) : List CfgLine :=
  [.sectionHeader "upsample", .kv "stride" (toString l.stride), .blank]

/-- `DarknetCfgGenerator.write_route_layer` (cfg_generator.py 80-89):
comma-joined referenced indices, or the `-1` default when the list is
empty (Python: falsy). -/
def write_route_cfg (l : LayerInfo) : List CfgLine :=
  [.sectionHeader "route",
   .kv "layers" (if l.layers = [] then "-1"
     else String.intercalate ", " (l.layers.map toString)),
   .blank]

/-- `DarknetCfgGenerator.write_shortcut_layer` (cfg_generator.py
91-100). -/
def write_shortcut_cfg (l : LayerInfo) : List CfgLine :=
  [.sectionHeader "shortcut",
   (match l.layers with
    | x :: _ => .kv "from" (toString x)
    | [] => .kv "from" "-3"),
   .kv "activation" "linear", .blank]

/-- `DarknetCfgGenerator.write_yolo_layer` (cfg_generator.py 102-125):
mask and anchors default when the caller passes none, plus classes and
the five fixed hyperparameter constants.  Present in the source but never
invoked by `write_layer`/`generate`. -/
def write_yolo_cfg (num_classes : Nat) (anchors mask : Option String) :
    List CfgLine :=
  [.sectionHeader "yolo",
   .kv "mask" (mask.getD "6,7,8"),
   .kv "anchors" (anchors.getD
     "10,13, 16,30, 33,23, 30,61, 62,45, 59,119, 116,90, 156,198, 373,326"),
   .kv "classes" (toString num_classes),
   .kv "num" "9", .kv "jitter" ".3", .kv "ignore_thresh" ".5",
   .kv "truth_thresh" "1", .kv "random" "1", .blank]

/-- `DarknetCfgGenerator.write_layer` (cfg_generator.py lines 127-139):
dispatch on the record kind; any other kind — `batch_normalization`,
`yolo` included — writes nothing. -/
def write_layer (l : LayerInfo) : List CfgLine :=
  if l.type = "convolutional" then write_convolutional_cfg l
  else if l.type = "maxpool" then write_maxpool_cfg l
  else if l.type = "upsample" then write_upsample_cfg l
  else if l.type = "route" then write_route_cfg l
  else if l.type = "shortcut" then write_shortcut_cfg l
  else []

/-- The layer loop of `DarknetCfgGenerator.generate` (cfg_generator.py
lines 156-163): every record whose kind is not `batch_normalization` is
passed to `write_layer`. -/
def cfgBody : List LayerInfo → List CfgLine
  | [] => []
  | l :: rest =>
    (if l.type = "batch_normalization" then [] else write_layer l) ++ cfgBody rest

/-- `DarknetCfgGenerator.generate` (cfg_generator.py lines 141-163): the
`[net]` section with the default momentum/decay constants, then the layer
sections. -/
def generate (ls : List LayerInfo) (shape : Nat × Nat × Nat)
    (batch subdivisions : Nat) : List CfgLine :=
  write_net_section shape batch subdivisions "0.9" "0.0005" ++ cfgBody ls

/-- The section headers of an emitted cfg, in order. -/
def headersOf (lines : List CfgLine) : List String :=
  lines.filterMap fun
    | .sectionHeader kind => some kind
    | _ => none

/-- The section kind a record contributes, if any: exactly the five kinds
`write_layer` dispatches on. -/
def layerHeaderKind (l : LayerInfo) : Option String :=
  if l.type = "convolutional" then some "convolutional"
  else if l.type = "maxpool" then some "maxpool"
  else if l.type = "upsample" then some "upsample"
  else if l.type = "route" then some "route"
  else if l.type = "shortcut" then some "shortcut"
  else none

theorem headersOf_append (a b : List CfgLine) :
    headersOf (a ++ b) = headersOf a ++ headersOf b := by
  unfold headersOf
  exact List.filterMap_append a b _

theorem headersOf_write_layer (l : LayerInfo) :
    headersOf (write_layer l) = (layerHeaderKind l).toList := by
  unfold write_layer layerHeaderKind
  split_ifs with h1 h2 h3 h4 h5
  · simp only [write_convolutional_cfg, headersOf, List.filterMap_append]
    split_ifs <;> rfl
  · rfl
  · rfl
  · rfl
  · cases hl : l.layers <;> simp [write_shortcut_cfg, headersOf, hl]
  · rfl

theorem headersOf_cfgBody (ls : List LayerInfo) :
    headersOf (cfgBody ls) = ls.filterMap layerHeaderKind := by
  induction ls with
  | nil => rfl
  | cons l rest ih =>
    simp only [cfgBody]
    rw [headersOf_append]
    by_cases hbn : l.type = "batch_normalization"
    · have hk : layerHeaderKind l = none := by simp [layerHeaderKind, hbn]
      rw [if_pos hbn, List.filterMap_cons, hk]
      simpa using ih
    · cases hk : layerHeaderKind l <;>
        simp [hbn, headersOf_write_layer, hk, ih]

/-- The Detection (yolo) record of the C7 counterexample. -/
def c7yolo : LayerInfo := { name := "yolo_1", type := "yolo" }

/-- Counterexample to claim C7: a Detection record produces no section at
all.  `write_layer` has no branch for the `yolo` kind (the yolo section
writer exists but is never invoked by `generate`), so a sequence holding
one Detection record emits only the `[net]` section. -/
theorem c7_counterexample :
    c7yolo.type = "yolo"
    ∧ headersOf (generate [c7yolo] (416, 416, 3) 1 1) = ["net"] := by decide

/-- Claim C7 as amended: the emitted text is one leading `[net]` section
followed by exactly one section per record of kind Convolution, Pool,
Upsample, Route or Shortcut, in order; Normalization records are skipped,
and Detection (yolo) and all other kinds also produce no section —
`write_layer` silently skips them and `write_yolo_layer` is never
invoked. -/
theorem c7_amended (ls : List LayerInfo) (shape : Nat × Nat × Nat)
    (batch subdivisions : Nat) :
    headersOf (generate ls shape batch subdivisions)
      = "net" :: ls.filterMap layerHeaderKind := by
  unfold generate
  rw [headersOf_append, headersOf_cfgBody]
  rfl
